import Mathlib

/-!
Shallow embedding of the 1v1 fighting game in `src/src/App.tsx`.

Numbers that are JavaScript doubles in the source are modelled as rationals
(`ℚ`); all arithmetic appearing in the claims (subtraction of damage,
multiplication by 1.5 / 1.3, the 0.1-second timer decrement, health
percentages) is exact in both models for the values involved.  Timestamps
(`Date.now()`) are modelled as rationals as well.  The stage width
(`window.innerWidth`) and ground y coordinate are runtime values, so they are
parameters of every function that reads them.  The `setTimeout` callbacks that
clear `isJumping` / `isAttacking` after a delay are asynchronous effects
outside the synchronous tick body; the tick itself only ever sets these flags,
which is what is embedded here.  Sound effects (`playSound`) are modelled as a
list of emitted cues returned by the tick.
-/

/-- Game phases of `GameState.gamePhase` in the source
(`selection | fighting | roundResult | gameOver`). -/
inductive GamePhase where
  | selection
  | fighting
  | roundResult
  | gameOver
deriving DecidableEq

/-- Intensity classification (`low | medium | high`). -/
inductive Intensity where
  | low
  | medium
  | high
deriving DecidableEq

/-- Sound cues emitted via `playSound` in the source. -/
inductive Cue where
  | hit
  | combo
  | special
deriving DecidableEq

/-- The two players, used to index `selectCharacter`. -/
inductive PlayerId where
  | player1
  | player2
deriving DecidableEq

/-- A fighter archetype: one entry of the `FIGHTERS` catalog in the source. -/
structure FighterArchetype where
  id : String
  name : String
  emoji : String
  color : String
  glowColor : String
  speed : ℚ
  power : ℚ
  health : ℚ
  specialMove : String
  specialDamage : ℚ
  comboThreshold : ℕ
deriving DecidableEq

def scorpion : FighterArchetype :=
  { id := "scorpion", name := "SCORPION", emoji := "🥷", color := "bg-yellow-600"
    glowColor := "shadow-yellow-500/50", speed := 8, power := 18, health := 100
    specialMove := "HELLFIRE", specialDamage := 35, comboThreshold := 3 }

def subzero : FighterArchetype :=
  { id := "subzero", name := "SUB-ZERO", emoji := "🥶", color := "bg-blue-600"
    glowColor := "shadow-blue-500/50", speed := 7, power := 20, health := 110
    specialMove := "ICE BLAST", specialDamage := 40, comboThreshold := 3 }

def raiden : FighterArchetype :=
  { id := "raiden", name := "RAIDEN", emoji := "⚡", color := "bg-purple-600"
    glowColor := "shadow-purple-500/50", speed := 9, power := 16, health := 95
    specialMove := "LIGHTNING", specialDamage := 30, comboThreshold := 4 }

def liukang : FighterArchetype :=
  { id := "liukang", name := "LIU KANG", emoji := "🔥", color := "bg-red-600"
    glowColor := "shadow-red-500/50", speed := 8, power := 17, health := 105
    specialMove := "DRAGON FIRE", specialDamage := 32, comboThreshold := 3 }

/-- The `FIGHTERS` catalog (object keyed by fighter id in the source). -/
def FIGHTERS : List FighterArchetype := [scorpion, subzero, raiden, liukang]

/-- Lookup `FIGHTERS[fighterKey]`.  In the source this is a JavaScript object
property access that yields `undefined` when the key is not an own property
of the catalog object; here it yields `none`.  Property names inherited from
`Object.prototype` (such as "constructor"), for which the JS access yields
the inherited function rather than `undefined`, are outside this embedding:
the model is faithful for ordinary data keys like the four fighter ids and
plain unregistered ids such as "goro" or the empty string. -/
def lookupFighter (fighterKey : String) : Option FighterArchetype :=
  FIGHTERS.find? fun f => f.id == fighterKey

/-- The `Character` interface of the source. -/
structure Character where
  id : String
  name : String
  emoji : String
  color : String
  glowColor : String
  x : ℚ
  y : ℚ
  health : ℚ
  maxHealth : ℚ
  speed : ℚ
  power : ℚ
  isJumping : Bool
  isAttacking : Bool
  facingRight : Bool
  width : ℚ
  height : ℚ
  combo : ℕ
  lastHitTime : ℚ
  momentumBoost : Bool
  momentumBoostTime : ℚ
  specialMove : String
  specialDamage : ℚ
  comboThreshold : ℕ
deriving DecidableEq

/-- The `GameState` interface of the source. -/
structure GameState where
  gamePhase : GamePhase
  player1 : Option Character
  player2 : Option Character
  player1Selection : Option String
  player2Selection : Option String
  roundTime : ℚ
  currentRound : ℕ
  player1Wins : ℕ
  player2Wins : ℕ
  winner : Option String
  roundWinner : Option String
  intensity : Intensity
deriving DecidableEq

def ROUND_TIME : ℚ := 60
def COMBO_RESET_TIME : ℚ := 2000
def MOMENTUM_BOOST_DURATION : ℚ := 8000
def MOMENTUM_HEALTH_THRESHOLD : ℚ := 30

/-- The initial `useState` value, also re-installed by `resetGame`. -/
def initialGameState : GameState :=
  { gamePhase := GamePhase.selection, player1 := none, player2 := none
    player1Selection := none, player2Selection := none, roundTime := ROUND_TIME
    currentRound := 1, player1Wins := 0, player2Wins := 0, winner := none
    roundWinner := none, intensity := Intensity.low }

/-- Embeds `createCharacter(fighterKey, isPlayer1)`.  The source spreads the catalog
entry and reads `fighter.health`; on an ordinary unregistered key (an
own-property miss, e.g. "goro") the property access `FIGHTERS[fighterKey]`
is `undefined` and reading `.health` throws a `TypeError`, modelled by
`none`.  Keys inherited from `Object.prototype` are outside this embedding
(see `lookupFighter`).  `stageWidth` is `STAGE_WIDTH`
(`window.innerWidth`) and `groundY` is `GROUND_Y`. -/
def createCharacter (stageWidth groundY : ℚ) (fighterKey : String)
    (isPlayer1 : Bool) : Option Character :=
  (lookupFighter fighterKey).map fun fighter =>
    { id := fighter.id, name := fighter.name, emoji := fighter.emoji
      color := fighter.color, glowColor := fighter.glowColor
      x := if isPlayer1 then stageWidth * (1/4) else stageWidth * (3/4)
      y := groundY
      health := fighter.health, maxHealth := fighter.health
      speed := fighter.speed, power := fighter.power
      isJumping := false, isAttacking := false
      facingRight := isPlayer1
      width := 80, height := 120, combo := 0, lastHitTime := 0
      momentumBoost := false, momentumBoostTime := 0
      specialMove := fighter.specialMove, specialDamage := fighter.specialDamage
      comboThreshold := fighter.comboThreshold }

/-- Embeds `selectCharacter(player, fighterKey)`: stores the key in the matching
selection slot, with no validation of the key. -/
def selectCharacter (player : PlayerId) (fighterKey : String)
    (s : GameState) : GameState :=
  match player with
  | PlayerId.player1 => { s with player1Selection := some fighterKey }
  | PlayerId.player2 => { s with player2Selection := some fighterKey }

/-- Embeds `startFight()`: the source guard
`if (!gameState.player1Selection || !gameState.player2Selection) return`
tests JS falsiness, which holds both for a missing selection and for the
empty-string id, so in either case `startFight` is a silent no-op; otherwise
it builds both characters and enters `fighting`.  `none` models the uncaught
`TypeError` thrown by `createCharacter` on an unregistered selection. -/
def startFight (stageWidth groundY : ℚ) (s : GameState) : Option GameState :=
  match s.player1Selection, s.player2Selection with
  | some k1, some k2 =>
    if k1 = "" ∨ k2 = "" then some s
    else
      match createCharacter stageWidth groundY k1 true,
            createCharacter stageWidth groundY k2 false with
      | some p1, some p2 =>
        some { s with
          gamePhase := GamePhase.fighting, player1 := some p1,
          player2 := some p2, roundTime := ROUND_TIME,
          intensity := Intensity.low }
      | _, _ => none
  | _, _ => some s

/-- Embeds `checkCollision(attacker, defender)`: horizontal distance below the attack
range of 100 and vertical difference below 50. -/
def checkCollision (attacker defender : Character) : Bool :=
  decide (|attacker.x - defender.x| < 100 ∧ |attacker.y - defender.y| < 50)

/-- Embeds `calculateIntensity(p1Health, p2Health, timeLeft)`. -/
def calculateIntensity (p1Health p2Health timeLeft : ℚ) : Intensity :=
  let avgHealth := (p1Health + p2Health) / 2
  let healthFactor : ℕ := if avgHealth < 30 then 2 else if avgHealth < 60 then 1 else 0
  let timeFactor : ℕ := if timeLeft < 20 then 2 else if timeLeft < 40 then 1 else 0
  let totalIntensity := healthFactor + timeFactor
  if totalIntensity ≥ 3 then Intensity.high
  else if totalIntensity ≥ 1 then Intensity.medium
  else Intensity.low

/-- Combo reset at the top of the tick: combo drops to 0 once more than
`COMBO_RESET_TIME` (2000 ms) has passed since the last hit. -/
def comboResetStep (currentTime : ℚ) (p : Character) : Character :=
  if currentTime - p.lastHitTime > COMBO_RESET_TIME then { p with combo := 0 } else p

/-- Momentum expiry: an active boost is cleared once more than
`MOMENTUM_BOOST_DURATION` (8000 ms) has passed since activation. -/
def momentumExpiryStep (currentTime : ℚ) (p : Character) : Character :=
  if p.momentumBoost ∧ currentTime - p.momentumBoostTime > MOMENTUM_BOOST_DURATION then
    { p with momentumBoost := false }
  else p

/-- Momentum activation check for one player (`me`) against the opponent
(`opp`): activates when own health percentage is below
`MOMENTUM_HEALTH_THRESHOLD` (30), the opponent's is above 60, and the boost is
not already active.  Both percentages are computed from the healths before any
activation, as in the source. -/
def momentumCheck (currentTime : ℚ) (me opp : Character) : Character :=
  let myPercent := me.health / me.maxHealth * 100
  let oppPercent := opp.health / opp.maxHealth * 100
  if myPercent < MOMENTUM_HEALTH_THRESHOLD ∧ oppPercent > 60 ∧ ¬me.momentumBoost then
    { me with momentumBoost := true, momentumBoostTime := currentTime }
  else me

/-- One player's movement for one tick.  `left`, `right`, `jump` say whether
the player's respective movement keys are held.  The source moves by the
effective speed when the current position is strictly inside the respective
bound, without clamping the result, and sets the facing direction; the jump
key sets `isJumping` (its delayed clear is a `setTimeout` outside the tick). -/
def moveChar (stageWidth : ℚ) (left right jump : Bool) (p : Character) : Character :=
  let speed := p.speed * (if p.momentumBoost then 3/2 else 1)
  let afterLeft :=
    if left ∧ p.x > 0 then { p with x := p.x - speed, facingRight := false } else p
  let afterRight :=
    if right ∧ afterLeft.x < stageWidth - afterLeft.width then
      { afterLeft with x := afterLeft.x + speed, facingRight := true }
    else afterLeft
  if jump ∧ ¬afterRight.isJumping then { afterRight with isJumping := true } else afterRight

/-- Result of one attack resolution: updated attacker, updated defender, and
the sound cues emitted. -/
structure AttackResult where
  attacker : Character
  defender : Character
  cues : List Cue
deriving DecidableEq

/-- Normal attack resolution for one player.  `keyHeld` says whether any of
the player's normal attack keys is held.  Fires when the key is held and the
attacker is not already attacking; on collision the damage is base power
times 1.3 under momentum boost (else times 1), the defender's health is
floored at 0, the attacker's combo is incremented, `lastHitTime` is recorded,
a hit cue is emitted, and a combo cue is added when the incremented combo is
at least 3. -/
def normalAttack (currentTime : ℚ) (keyHeld : Bool)
    (attacker defender : Character) : AttackResult :=
  if keyHeld ∧ ¬attacker.isAttacking then
    let attacker := { attacker with isAttacking := true }
    if checkCollision attacker defender then
      let damage := attacker.power * (if attacker.momentumBoost then 13/10 else 1)
      let defender := { defender with health := max 0 (defender.health - damage) }
      let attacker := { attacker with combo := attacker.combo + 1, lastHitTime := currentTime }
      { attacker := attacker, defender := defender
        cues := if attacker.combo ≥ 3 then [Cue.hit, Cue.combo] else [Cue.hit] }
    else { attacker := attacker, defender := defender, cues := [] }
  else { attacker := attacker, defender := defender, cues := [] }

/-- Special move resolution for one player.  Fires when the special key is
held, the combo has reached the archetype's threshold, and the attacker is not
already attacking; on collision the damage is the archetype's special damage
times 1.5 under momentum boost (else times 1), the defender's health is
floored at 0, the attacker's combo is reset to 0, and a special cue is
emitted.  Without a collision the combo is left unchanged. -/
def specialAttack (keyHeld : Bool) (attacker defender : Character) : AttackResult :=
  if keyHeld ∧ attacker.combo ≥ attacker.comboThreshold ∧ ¬attacker.isAttacking then
    let attacker := { attacker with isAttacking := true }
    if checkCollision attacker defender then
      let damage := attacker.specialDamage * (if attacker.momentumBoost then 3/2 else 1)
      let defender := { defender with health := max 0 (defender.health - damage) }
      let attacker := { attacker with combo := 0 }
      { attacker := attacker, defender := defender, cues := [Cue.special] }
    else { attacker := attacker, defender := defender, cues := [] }
  else { attacker := attacker, defender := defender, cues := [] }

/-- Round-end check at the bottom of the tick (`p1`, `p2` are the post-combat
characters, `rt` the decremented round time, `inten` the recomputed
intensity).  The round ends when either health is at most 0 or the time is at
most 0; the winner branches mirror the source: player1's health is checked
first, then player2's, then the higher health wins with ties going to
player2.  After the increment, a win counter at 2 or more moves the phase
directly to `gameOver` and sets the match winner. -/
def roundEndStep (s : GameState) (p1 p2 : Character) (rt : ℚ)
    (inten : Intensity) : GameState :=
  let base := { s with
    player1 := some p1, player2 := some p2,
    roundTime := rt, intensity := inten }
  if p1.health ≤ 0 ∨ p2.health ≤ 0 ∨ rt ≤ 0 then
    let result : String × ℕ × ℕ :=
      if p1.health ≤ 0 then ("player2", s.player1Wins, s.player2Wins + 1)
      else if p2.health ≤ 0 then ("player1", s.player1Wins + 1, s.player2Wins)
      else if p1.health > p2.health then ("player1", s.player1Wins + 1, s.player2Wins)
      else ("player2", s.player1Wins, s.player2Wins + 1)
    let afterRound :=
      { base with
        roundWinner := some result.1, gamePhase := GamePhase.roundResult,
        player1Wins := result.2.1, player2Wins := result.2.2 }
    if result.2.1 ≥ 2 ∨ result.2.2 ≥ 2 then
      { afterRound with
        gamePhase := GamePhase.gameOver,
        winner := some (if result.2.1 ≥ 2 then p1.name else p2.name) }
    else afterRound
  else base

/-- The combat portion of one tick: combo resets, momentum expiry and
activation, movement for both players, then player1's normal attack, player1's
special, player2's normal attack, player2's special, in source order. -/
def combatPipeline (stageWidth : ℚ) (keys : List String) (currentTime : ℚ)
    (a1 a2 : Character) : AttackResult :=
  let b1 := comboResetStep currentTime a1
  let b2 := comboResetStep currentTime a2
  let c1 := momentumExpiryStep currentTime b1
  let c2 := momentumExpiryStep currentTime b2
  let d1 := momentumCheck currentTime c1 c2
  let d2 := momentumCheck currentTime c2 c1
  let e1 := moveChar stageWidth (keys.contains "a") (keys.contains "d") (keys.contains "w") d1
  let e2 := moveChar stageWidth (keys.contains "arrowleft") (keys.contains "arrowright")
    (keys.contains "arrowup") d2
  let r1 := normalAttack currentTime
    (keys.contains "j" || keys.contains "k" || keys.contains "l") e1 e2
  let r2 := specialAttack (keys.contains "q") r1.attacker r1.defender
  let r3 := normalAttack currentTime (keys.contains " ") r2.defender r2.attacker
  let r4 := specialAttack (keys.contains "enter") r3.attacker r3.defender
  { attacker := r4.defender, defender := r4.attacker, cues := r1.cues ++ r2.cues ++ r3.cues ++ r4.cues }

/-- One iteration of the `setInterval` game loop: a no-op unless both players
exist and the phase is `fighting`; otherwise decrements the round timer
(clamped at 0), runs the combat pipeline, recomputes the intensity and applies
the round-end check.  In the result of `combatPipeline`, `attacker` holds the
updated player1 and `defender` the updated player2. -/
def gameLoopTick (stageWidth : ℚ) (keys : List String) (currentTime : ℚ)
    (prev : GameState) : GameState × List Cue :=
  match prev.player1, prev.player2 with
  | some a1, some a2 =>
    if prev.gamePhase = GamePhase.fighting then
      let rt := max 0 (prev.roundTime - 1/10)
      let r := combatPipeline stageWidth keys currentTime a1 a2
      (roundEndStep prev r.attacker r.defender rt
        (calculateIntensity r.attacker.health r.defender.health rt), r.cues)
    else (prev, [])
  | _, _ => (prev, [])

/-- Embeds `startNextRound()`: a no-op when either player is missing; otherwise —
regardless of the current phase — restores both players' health, repositions
them, clears flags and combo, advances the round counter and re-enters
`fighting`.  Win counters are not touched. -/
def startNextRound (stageWidth groundY : ℚ) (s : GameState) : GameState :=
  match s.player1, s.player2 with
  | some p1, some p2 =>
    { s with
      gamePhase := GamePhase.fighting,
      player1 := some { p1 with
        x := stageWidth * (1/4), y := groundY,
        health := p1.maxHealth, isJumping := false, isAttacking := false,
        facingRight := true, combo := 0, momentumBoost := false },
      player2 := some { p2 with
        x := stageWidth * (3/4), y := groundY,
        health := p2.maxHealth, isJumping := false, isAttacking := false,
        facingRight := false, combo := 0, momentumBoost := false },
      roundTime := ROUND_TIME, currentRound := s.currentRound + 1,
      roundWinner := none, intensity := Intensity.low }
  | _, _ => s

/-- Embeds `resetGame()`: full reset to the initial selection state. -/
def resetGame (_ : GameState) : GameState := initialGameState

/-- One tick of the game loop as a step relation, for determinism statements:
`GameStep W keys t s s2 cues` holds when running the tick from `s` with held
keys `keys` at wall-clock time `t` produces state `s2` and emits `cues`. -/
def GameStep (stageWidth : ℚ) (keys : List String) (currentTime : ℚ)
    (s s2 : GameState) (cues : List Cue) : Prop :=
  gameLoopTick stageWidth keys currentTime s = (s2, cues)

/-! ### Field-preservation lemmas for the tick's step functions -/

lemma comboResetStep_health (t : ℚ) (p : Character) :
    (comboResetStep t p).health = p.health := by
  simp only [comboResetStep]; split_ifs <;> rfl

lemma comboResetStep_maxHealth (t : ℚ) (p : Character) :
    (comboResetStep t p).maxHealth = p.maxHealth := by
  simp only [comboResetStep]; split_ifs <;> rfl

lemma comboResetStep_power (t : ℚ) (p : Character) :
    (comboResetStep t p).power = p.power := by
  simp only [comboResetStep]; split_ifs <;> rfl

lemma comboResetStep_specialDamage (t : ℚ) (p : Character) :
    (comboResetStep t p).specialDamage = p.specialDamage := by
  simp only [comboResetStep]; split_ifs <;> rfl

lemma comboResetStep_x (t : ℚ) (p : Character) :
    (comboResetStep t p).x = p.x := by
  simp only [comboResetStep]; split_ifs <;> rfl

lemma comboResetStep_width (t : ℚ) (p : Character) :
    (comboResetStep t p).width = p.width := by
  simp only [comboResetStep]; split_ifs <;> rfl

lemma comboResetStep_speed (t : ℚ) (p : Character) :
    (comboResetStep t p).speed = p.speed := by
  simp only [comboResetStep]; split_ifs <;> rfl

lemma momentumExpiryStep_health (t : ℚ) (p : Character) :
    (momentumExpiryStep t p).health = p.health := by
  simp only [momentumExpiryStep]; split_ifs <;> rfl

lemma momentumExpiryStep_maxHealth (t : ℚ) (p : Character) :
    (momentumExpiryStep t p).maxHealth = p.maxHealth := by
  simp only [momentumExpiryStep]; split_ifs <;> rfl

lemma momentumExpiryStep_power (t : ℚ) (p : Character) :
    (momentumExpiryStep t p).power = p.power := by
  simp only [momentumExpiryStep]; split_ifs <;> rfl

lemma momentumExpiryStep_specialDamage (t : ℚ) (p : Character) :
    (momentumExpiryStep t p).specialDamage = p.specialDamage := by
  simp only [momentumExpiryStep]; split_ifs <;> rfl

lemma momentumExpiryStep_x (t : ℚ) (p : Character) :
    (momentumExpiryStep t p).x = p.x := by
  simp only [momentumExpiryStep]; split_ifs <;> rfl

lemma momentumExpiryStep_width (t : ℚ) (p : Character) :
    (momentumExpiryStep t p).width = p.width := by
  simp only [momentumExpiryStep]; split_ifs <;> rfl

lemma momentumExpiryStep_speed (t : ℚ) (p : Character) :
    (momentumExpiryStep t p).speed = p.speed := by
  simp only [momentumExpiryStep]; split_ifs <;> rfl

lemma momentumCheck_health (t : ℚ) (me opp : Character) :
    (momentumCheck t me opp).health = me.health := by
  simp only [momentumCheck]; split_ifs <;> rfl

lemma momentumCheck_maxHealth (t : ℚ) (me opp : Character) :
    (momentumCheck t me opp).maxHealth = me.maxHealth := by
  simp only [momentumCheck]; split_ifs <;> rfl

lemma momentumCheck_power (t : ℚ) (me opp : Character) :
    (momentumCheck t me opp).power = me.power := by
  simp only [momentumCheck]; split_ifs <;> rfl

lemma momentumCheck_specialDamage (t : ℚ) (me opp : Character) :
    (momentumCheck t me opp).specialDamage = me.specialDamage := by
  simp only [momentumCheck]; split_ifs <;> rfl

lemma momentumCheck_x (t : ℚ) (me opp : Character) :
    (momentumCheck t me opp).x = me.x := by
  simp only [momentumCheck]; split_ifs <;> rfl

lemma momentumCheck_width (t : ℚ) (me opp : Character) :
    (momentumCheck t me opp).width = me.width := by
  simp only [momentumCheck]; split_ifs <;> rfl

lemma momentumCheck_speed (t : ℚ) (me opp : Character) :
    (momentumCheck t me opp).speed = me.speed := by
  simp only [momentumCheck]; split_ifs <;> rfl

lemma moveChar_health (W : ℚ) (l r j : Bool) (p : Character) :
    (moveChar W l r j p).health = p.health := by
  simp only [moveChar]; split_ifs <;> rfl

lemma moveChar_maxHealth (W : ℚ) (l r j : Bool) (p : Character) :
    (moveChar W l r j p).maxHealth = p.maxHealth := by
  simp only [moveChar]; split_ifs <;> rfl

lemma moveChar_power (W : ℚ) (l r j : Bool) (p : Character) :
    (moveChar W l r j p).power = p.power := by
  simp only [moveChar]; split_ifs <;> rfl

lemma moveChar_specialDamage (W : ℚ) (l r j : Bool) (p : Character) :
    (moveChar W l r j p).specialDamage = p.specialDamage := by
  simp only [moveChar]; split_ifs <;> rfl

lemma moveChar_width (W : ℚ) (l r j : Bool) (p : Character) :
    (moveChar W l r j p).width = p.width := by
  simp only [moveChar]; split_ifs <;> rfl

lemma moveChar_speed (W : ℚ) (l r j : Bool) (p : Character) :
    (moveChar W l r j p).speed = p.speed := by
  simp only [moveChar]; split_ifs <;> rfl

lemma normalAttack_attacker_health (t : ℚ) (k : Bool) (a d : Character) :
    (normalAttack t k a d).attacker.health = a.health := by
  simp only [normalAttack]; split_ifs <;> rfl

lemma normalAttack_attacker_maxHealth (t : ℚ) (k : Bool) (a d : Character) :
    (normalAttack t k a d).attacker.maxHealth = a.maxHealth := by
  simp only [normalAttack]; split_ifs <;> rfl

lemma normalAttack_attacker_power (t : ℚ) (k : Bool) (a d : Character) :
    (normalAttack t k a d).attacker.power = a.power := by
  simp only [normalAttack]; split_ifs <;> rfl

lemma normalAttack_attacker_specialDamage (t : ℚ) (k : Bool) (a d : Character) :
    (normalAttack t k a d).attacker.specialDamage = a.specialDamage := by
  simp only [normalAttack]; split_ifs <;> rfl

lemma normalAttack_attacker_x (t : ℚ) (k : Bool) (a d : Character) :
    (normalAttack t k a d).attacker.x = a.x := by
  simp only [normalAttack]; split_ifs <;> rfl

lemma normalAttack_attacker_width (t : ℚ) (k : Bool) (a d : Character) :
    (normalAttack t k a d).attacker.width = a.width := by
  simp only [normalAttack]; split_ifs <;> rfl

lemma normalAttack_attacker_speed (t : ℚ) (k : Bool) (a d : Character) :
    (normalAttack t k a d).attacker.speed = a.speed := by
  simp only [normalAttack]; split_ifs <;> rfl

lemma normalAttack_defender_maxHealth (t : ℚ) (k : Bool) (a d : Character) :
    (normalAttack t k a d).defender.maxHealth = d.maxHealth := by
  simp only [normalAttack]; split_ifs <;> rfl

lemma normalAttack_defender_power (t : ℚ) (k : Bool) (a d : Character) :
    (normalAttack t k a d).defender.power = d.power := by
  simp only [normalAttack]; split_ifs <;> rfl

lemma normalAttack_defender_specialDamage (t : ℚ) (k : Bool) (a d : Character) :
    (normalAttack t k a d).defender.specialDamage = d.specialDamage := by
  simp only [normalAttack]; split_ifs <;> rfl

lemma normalAttack_defender_x (t : ℚ) (k : Bool) (a d : Character) :
    (normalAttack t k a d).defender.x = d.x := by
  simp only [normalAttack]; split_ifs <;> rfl

lemma normalAttack_defender_width (t : ℚ) (k : Bool) (a d : Character) :
    (normalAttack t k a d).defender.width = d.width := by
  simp only [normalAttack]; split_ifs <;> rfl

lemma normalAttack_defender_speed (t : ℚ) (k : Bool) (a d : Character) :
    (normalAttack t k a d).defender.speed = d.speed := by
  simp only [normalAttack]; split_ifs <;> rfl

lemma specialAttack_attacker_health (k : Bool) (a d : Character) :
    (specialAttack k a d).attacker.health = a.health := by
  simp only [specialAttack]; split_ifs <;> rfl

lemma specialAttack_attacker_maxHealth (k : Bool) (a d : Character) :
    (specialAttack k a d).attacker.maxHealth = a.maxHealth := by
  simp only [specialAttack]; split_ifs <;> rfl

lemma specialAttack_attacker_power (k : Bool) (a d : Character) :
    (specialAttack k a d).attacker.power = a.power := by
  simp only [specialAttack]; split_ifs <;> rfl

lemma specialAttack_attacker_specialDamage (k : Bool) (a d : Character) :
    (specialAttack k a d).attacker.specialDamage = a.specialDamage := by
  simp only [specialAttack]; split_ifs <;> rfl

lemma specialAttack_attacker_x (k : Bool) (a d : Character) :
    (specialAttack k a d).attacker.x = a.x := by
  simp only [specialAttack]; split_ifs <;> rfl

lemma specialAttack_attacker_width (k : Bool) (a d : Character) :
    (specialAttack k a d).attacker.width = a.width := by
  simp only [specialAttack]; split_ifs <;> rfl

lemma specialAttack_attacker_speed (k : Bool) (a d : Character) :
    (specialAttack k a d).attacker.speed = a.speed := by
  simp only [specialAttack]; split_ifs <;> rfl

lemma specialAttack_defender_maxHealth (k : Bool) (a d : Character) :
    (specialAttack k a d).defender.maxHealth = d.maxHealth := by
  simp only [specialAttack]; split_ifs <;> rfl

lemma specialAttack_defender_power (k : Bool) (a d : Character) :
    (specialAttack k a d).defender.power = d.power := by
  simp only [specialAttack]; split_ifs <;> rfl

lemma specialAttack_defender_specialDamage (k : Bool) (a d : Character) :
    (specialAttack k a d).defender.specialDamage = d.specialDamage := by
  simp only [specialAttack]; split_ifs <;> rfl

lemma specialAttack_defender_x (k : Bool) (a d : Character) :
    (specialAttack k a d).defender.x = d.x := by
  simp only [specialAttack]; split_ifs <;> rfl

lemma specialAttack_defender_width (k : Bool) (a d : Character) :
    (specialAttack k a d).defender.width = d.width := by
  simp only [specialAttack]; split_ifs <;> rfl

lemma specialAttack_defender_speed (k : Bool) (a d : Character) :
    (specialAttack k a d).defender.speed = d.speed := by
  simp only [specialAttack]; split_ifs <;> rfl

lemma roundEndStep_player1 (s : GameState) (p1 p2 : Character) (rt : ℚ)
    (inten : Intensity) : (roundEndStep s p1 p2 rt inten).player1 = some p1 := by
  simp only [roundEndStep]; split_ifs <;> rfl

lemma roundEndStep_player2 (s : GameState) (p1 p2 : Character) (rt : ℚ)
    (inten : Intensity) : (roundEndStep s p1 p2 rt inten).player2 = some p2 := by
  simp only [roundEndStep]; split_ifs <;> rfl

/-! ### Health bounds for the two damage-dealing steps -/

lemma normalAttack_defender_health_nonneg (t : ℚ) (k : Bool) (a d : Character)
    (hd : 0 ≤ d.health) : 0 ≤ (normalAttack t k a d).defender.health := by
  simp only [normalAttack]
  split_ifs <;> first | exact le_max_left 0 _ | exact hd

lemma specialAttack_defender_health_nonneg (k : Bool) (a d : Character)
    (hd : 0 ≤ d.health) : 0 ≤ (specialAttack k a d).defender.health := by
  simp only [specialAttack]
  split_ifs <;> first | exact le_max_left 0 _ | exact hd

lemma normalAttack_defender_health_le (t : ℚ) (k : Bool) (a d : Character)
    (hd : 0 ≤ d.health) (hp : 0 ≤ a.power) :
    (normalAttack t k a d).defender.health ≤ d.health := by
  simp only [normalAttack]
  split_ifs <;>
    first
    | exact le_refl _
    | exact max_le hd (sub_le_self _ (mul_nonneg hp (by norm_num)))

lemma specialAttack_defender_health_le (k : Bool) (a d : Character)
    (hd : 0 ≤ d.health) (hp : 0 ≤ a.specialDamage) :
    (specialAttack k a d).defender.health ≤ d.health := by
  simp only [specialAttack]
  split_ifs <;>
    first
    | exact le_refl _
    | exact max_le hd (sub_le_self _ (mul_nonneg hp (by norm_num)))

lemma normalAttack_defender_health_unchanged (t : ℚ) (k : Bool) (a d : Character)
    (h : ¬(k ∧ ¬a.isAttacking ∧ checkCollision a d = true)) :
    (normalAttack t k a d).defender.health = d.health := by
  simp only [normalAttack]
  split_ifs with h1 h2 <;> first
  | rfl
  | exact absurd ⟨h1.1, h1.2, h2⟩ h

lemma specialAttack_defender_health_unchanged (k : Bool) (a d : Character)
    (h : ¬(k ∧ a.combo ≥ a.comboThreshold ∧ ¬a.isAttacking ∧ checkCollision a d = true)) :
    (specialAttack k a d).defender.health = d.health := by
  simp only [specialAttack]
  split_ifs with h1 h2 <;> first
  | rfl
  | exact absurd ⟨h1.1, h1.2.1, h1.2.2, h2⟩ h

/-- Movement overshoot bound: starting inside the stage bounds, one movement
step can leave them by strictly less than the effective speed, which is at
most `3/2` of the base speed. -/
lemma moveChar_x_bounds (W : ℚ) (l r j : Bool) (p : Character)
    (hsp : 0 < p.speed) (h0 : 0 ≤ p.x) (h1 : p.x ≤ W - p.width) :
    -(3/2 * p.speed) < (moveChar W l r j p).x ∧
      (moveChar W l r j p).x < W - p.width + 3/2 * p.speed := by
  have hs : 0 < p.speed * (if p.momentumBoost = true then (3:ℚ)/2 else 1) ∧
      p.speed * (if p.momentumBoost = true then (3:ℚ)/2 else 1) ≤ 3/2 * p.speed := by
    split_ifs <;> constructor <;> nlinarith
  simp only [moveChar]
  set s := p.speed * (if p.momentumBoost = true then (3:ℚ)/2 else 1) with hsdef
  by_cases hl : l = true ∧ p.x > 0
  · rw [if_pos hl]
    dsimp only
    by_cases hr : r = true ∧ p.x - s < W - p.width
    · rw [if_pos hr]
      split_ifs <;> constructor <;> nlinarith [hl.2, hr.2, hs.1, hs.2, hsp, h0, h1]
    · rw [if_neg hr]
      split_ifs <;> constructor <;> nlinarith [hl.2, hs.1, hs.2, hsp, h0, h1]
  · rw [if_neg hl]
    by_cases hr : r = true ∧ p.x < W - p.width
    · rw [if_pos hr]
      split_ifs <;> constructor <;> nlinarith [hr.2, hs.1, hs.2, hsp, h0, h1]
    · rw [if_neg hr]
      split_ifs <;> constructor <;> nlinarith [hs.1, hs.2, hsp, h0, h1]

/-! ### Concrete fixtures (stage width 1000, ground y 850) used by witnesses
and counterexamples.  `charA`/`charB` are the characters `startFight` creates
when both players pick scorpion, mid-fight variants are built by record
update. -/

def charA : Character :=
  { id := "scorpion", name := "SCORPION", emoji := "🥷", color := "bg-yellow-600",
    glowColor := "shadow-yellow-500/50", x := 250, y := 850, health := 100,
    maxHealth := 100, speed := 8, power := 18, isJumping := false,
    isAttacking := false, facingRight := true, width := 80, height := 120,
    combo := 0, lastHitTime := 0, momentumBoost := false, momentumBoostTime := 0,
    specialMove := "HELLFIRE", specialDamage := 35, comboThreshold := 3 }

def charB : Character :=
  { charA with x := 750, facingRight := false }

/-- A fighting-phase state with the given two characters, as produced by
`startFight` and then evolved by ticks. -/
def fightingFrom (p1 p2 : Character) : GameState :=
  { gamePhase := GamePhase.fighting, player1 := some p1, player2 := some p2,
    player1Selection := some "scorpion", player2Selection := some "scorpion",
    roundTime := ROUND_TIME, currentRound := 1, player1Wins := 0,
    player2Wins := 0, winner := none, roundWinner := none,
    intensity := Intensity.low }

/-- C6: on each fighting tick the momentum activation check for a player
turns the boost on and records the activation timestamp exactly when that
player's health percentage is below 30, the opponent's is above 60, and the
boost is not already active; a player whose boost is already active is left
completely unchanged by the check (no re-activation, no timestamp refresh). -/
theorem momentum_activation_exact (t : ℚ) (p1 p2 : Character) :
    (¬p1.momentumBoost →
      momentumCheck t p1 p2 =
        if p1.health / p1.maxHealth * 100 < MOMENTUM_HEALTH_THRESHOLD ∧
            p2.health / p2.maxHealth * 100 > 60 then
          { p1 with momentumBoost := true, momentumBoostTime := t }
        else p1)
    ∧ (p1.momentumBoost → momentumCheck t p1 p2 = p1) := by
  constructor
  · intro hb
    simp only [momentumCheck]
    by_cases h : p1.health / p1.maxHealth * 100 < MOMENTUM_HEALTH_THRESHOLD ∧
        p2.health / p2.maxHealth * 100 > 60
    · rw [if_pos ⟨h.1, h.2, hb⟩, if_pos h]
    · rw [if_neg (fun hc => h ⟨hc.1, hc.2.1⟩), if_neg h]
  · intro hb
    simp only [momentumCheck]
    rw [if_neg (fun hc => hc.2.2 hb)]

/-- Witness for C6: a player at 20% health facing an opponent at 100% health,
boost inactive, gets the boost with the current timestamp recorded. -/
theorem momentum_activation_exact_witness :
    momentumCheck 5 { charA with health := 20 } charB =
      { charA with health := 20, momentumBoost := true, momentumBoostTime := 5 } := by
  have h := (momentum_activation_exact 5 { charA with health := 20 } charB).1 (by decide)
  rw [h, if_pos]
  constructor <;> norm_num [charA, charB, MOMENTUM_HEALTH_THRESHOLD]

/-- Scenario B state: a fighting tick is about to bring the round time from
0.1 to exactly 0 with player1 at health 40 and player2 at health 25. -/
def scenarioB : GameState :=
  { fightingFrom { charA with health := 40 } { charB with health := 25 } with
    roundTime := 1/10 }

/-- C1: when a round ends, the winner is decided by checking player1's
health first (player2 wins, which also covers both healths hitting 0
together), then player2's health (player1 wins), and on time expiry with both
alive the strictly higher health wins with exact ties going to player2; the
winner's round-win counter is incremented and the loser's is untouched.
Concretely, time reaching 0 with healths 40 (p1) vs 25 (p2) makes player1 the
round winner and moves player1Wins from 0 to 1. -/
theorem round_winner_policy :
    (∀ (s : GameState) (p1 p2 : Character) (rt : ℚ) (i : Intensity),
      p1.health ≤ 0 →
        (roundEndStep s p1 p2 rt i).roundWinner = some "player2" ∧
        (roundEndStep s p1 p2 rt i).player2Wins = s.player2Wins + 1 ∧
        (roundEndStep s p1 p2 rt i).player1Wins = s.player1Wins)
    ∧ (∀ (s : GameState) (p1 p2 : Character) (rt : ℚ) (i : Intensity),
      0 < p1.health → p2.health ≤ 0 →
        (roundEndStep s p1 p2 rt i).roundWinner = some "player1" ∧
        (roundEndStep s p1 p2 rt i).player1Wins = s.player1Wins + 1 ∧
        (roundEndStep s p1 p2 rt i).player2Wins = s.player2Wins)
    ∧ (∀ (s : GameState) (p1 p2 : Character) (rt : ℚ) (i : Intensity),
      0 < p1.health → 0 < p2.health → rt ≤ 0 →
        (roundEndStep s p1 p2 rt i).roundWinner =
          some (if p1.health > p2.health then "player1" else "player2") ∧
        (p1.health > p2.health →
          (roundEndStep s p1 p2 rt i).player1Wins = s.player1Wins + 1 ∧
          (roundEndStep s p1 p2 rt i).player2Wins = s.player2Wins) ∧
        (¬p1.health > p2.health →
          (roundEndStep s p1 p2 rt i).player1Wins = s.player1Wins ∧
          (roundEndStep s p1 p2 rt i).player2Wins = s.player2Wins + 1))
    ∧ ((gameLoopTick 1000 [] 0 scenarioB).1.roundWinner = some "player1" ∧
       (gameLoopTick 1000 [] 0 scenarioB).1.player1Wins = 1 ∧
       (gameLoopTick 1000 [] 0 scenarioB).1.player2Wins = 0 ∧
       (gameLoopTick 1000 [] 0 scenarioB).1.gamePhase = GamePhase.roundResult ∧
       (gameLoopTick 1000 [] 0 scenarioB).1.roundTime = 0) := by
  refine ⟨?_, ?_, ?_, ?_⟩
  · intro s p1 p2 rt i h
    simp only [roundEndStep]
    rw [if_pos (Or.inl h), if_pos h]
    split_ifs <;> exact ⟨rfl, rfl, rfl⟩
  · intro s p1 p2 rt i h1 h2
    simp only [roundEndStep]
    rw [if_pos (Or.inr (Or.inl h2)), if_neg (not_le.mpr h1), if_pos h2]
    split_ifs <;> exact ⟨rfl, rfl, rfl⟩
  · intro s p1 p2 rt i h1 h2 hrt
    simp only [roundEndStep]
    rw [if_pos (Or.inr (Or.inr hrt)), if_neg (not_le.mpr h1), if_neg (not_le.mpr h2)]
    by_cases hgt : p1.health > p2.health
    · rw [if_pos hgt, if_pos hgt]
      split_ifs <;>
        exact ⟨rfl, fun _ => ⟨rfl, rfl⟩, fun hc => absurd hgt hc⟩
    · rw [if_neg hgt, if_neg hgt]
      split_ifs <;>
        exact ⟨rfl, fun hc => absurd hc hgt, fun _ => ⟨rfl, rfl⟩⟩
  · norm_num +decide [gameLoopTick, combatPipeline, comboResetStep, momentumExpiryStep,
      momentumCheck, moveChar, normalAttack, specialAttack, checkCollision,
      calculateIntensity, roundEndStep, scenarioB, fightingFrom, charA, charB,
      COMBO_RESET_TIME, MOMENTUM_BOOST_DURATION, MOMENTUM_HEALTH_THRESHOLD, ROUND_TIME]

/-- Witness for C1: the double-zero tie goes to player2 (scenario C of the
spec), obtained from the first branch of the policy at concrete characters. -/
theorem round_winner_policy_witness :
    (roundEndStep (fightingFrom { charA with health := 0 } { charB with health := 0 })
      { charA with health := 0 } { charB with health := 0 } 30 Intensity.low).roundWinner =
        some "player2" ∧
    (roundEndStep (fightingFrom { charA with health := 0 } { charB with health := 0 })
      { charA with health := 0 } { charB with health := 0 } 30 Intensity.low).player2Wins = 1 := by
  have h := round_winner_policy.1
    (fightingFrom { charA with health := 0 } { charB with health := 0 })
    { charA with health := 0 } { charB with health := 0 } 30 Intensity.low (le_refl 0)
  exact ⟨h.1, h.2.1⟩

/-- C7: when a round ends with both pre-round win counters at most 1 (the
only reachable values before a round-end increment), the phase moves to
`gameOver` exactly when a counter reaches 2 after the increment, in the same
tick (the phase is set directly, never left at `roundResult`), and the match
winner is the name of the player whose counter reached 2; otherwise the phase
is `roundResult`. -/
theorem match_end_policy (s : GameState) (p1 p2 : Character) (rt : ℚ)
    (i : Intensity) (hw1 : s.player1Wins ≤ 1) (hw2 : s.player2Wins ≤ 1)
    (hend : p1.health ≤ 0 ∨ p2.health ≤ 0 ∨ rt ≤ 0) :
    ((roundEndStep s p1 p2 rt i).gamePhase = GamePhase.gameOver ↔
      (roundEndStep s p1 p2 rt i).player1Wins = 2 ∨
        (roundEndStep s p1 p2 rt i).player2Wins = 2)
    ∧ ((roundEndStep s p1 p2 rt i).player1Wins = 2 →
        (roundEndStep s p1 p2 rt i).winner = some p1.name)
    ∧ ((roundEndStep s p1 p2 rt i).player2Wins = 2 →
        (roundEndStep s p1 p2 rt i).winner = some p2.name)
    ∧ ((roundEndStep s p1 p2 rt i).gamePhase ≠ GamePhase.gameOver →
        (roundEndStep s p1 p2 rt i).gamePhase = GamePhase.roundResult) := by
  simp only [roundEndStep]
  rw [if_pos hend]
  split_ifs <;>
    refine ⟨⟨fun hph => ?_, fun hbw => ?_⟩, fun hx1 => ?_, fun hx2 => ?_, fun hnp => ?_⟩ <;>
    (try dsimp only at *) <;>
    first
    | rfl
    | omega
    | exact absurd rfl hnp

/-- Witness for C7: with player1 already at one round win, a round ending by
player2's knockout moves the phase directly to `gameOver` with SCORPION as
match winner. -/
theorem match_end_policy_witness :
    (roundEndStep { fightingFrom charA charB with player1Wins := 1 }
        charA { charB with health := 0 } 30 Intensity.low).gamePhase =
      GamePhase.gameOver ∧
    (roundEndStep { fightingFrom charA charB with player1Wins := 1 }
        charA { charB with health := 0 } 30 Intensity.low).winner = some "SCORPION" := by
  have h := match_end_policy { fightingFrom charA charB with player1Wins := 1 }
    charA { charB with health := 0 } 30 Intensity.low (by decide) (by decide)
    (Or.inr (Or.inl (le_refl _)))
  have hw : (roundEndStep { fightingFrom charA charB with player1Wins := 1 }
      charA { charB with health := 0 } 30 Intensity.low).player1Wins = 2 := by
    norm_num +decide [roundEndStep, fightingFrom, charA, charB]
  exact ⟨h.1.mpr (Or.inl hw), h.2.1 hw⟩

/-! ### Composition lemmas: one player's normal attack followed by their
special (the pattern the pipeline applies once per player). -/

lemma attackPair_attacker_health (t : ℚ) (k1 k2 : Bool) (A D : Character) :
    (specialAttack k2 (normalAttack t k1 A D).attacker
      (normalAttack t k1 A D).defender).attacker.health = A.health := by
  rw [specialAttack_attacker_health, normalAttack_attacker_health]

lemma attackPair_attacker_maxHealth (t : ℚ) (k1 k2 : Bool) (A D : Character) :
    (specialAttack k2 (normalAttack t k1 A D).attacker
      (normalAttack t k1 A D).defender).attacker.maxHealth = A.maxHealth := by
  rw [specialAttack_attacker_maxHealth, normalAttack_attacker_maxHealth]

lemma attackPair_defender_maxHealth (t : ℚ) (k1 k2 : Bool) (A D : Character) :
    (specialAttack k2 (normalAttack t k1 A D).attacker
      (normalAttack t k1 A D).defender).defender.maxHealth = D.maxHealth := by
  rw [specialAttack_defender_maxHealth, normalAttack_defender_maxHealth]

lemma attackPair_attacker_power (t : ℚ) (k1 k2 : Bool) (A D : Character) :
    (specialAttack k2 (normalAttack t k1 A D).attacker
      (normalAttack t k1 A D).defender).attacker.power = A.power := by
  rw [specialAttack_attacker_power, normalAttack_attacker_power]

lemma attackPair_defender_power (t : ℚ) (k1 k2 : Bool) (A D : Character) :
    (specialAttack k2 (normalAttack t k1 A D).attacker
      (normalAttack t k1 A D).defender).defender.power = D.power := by
  rw [specialAttack_defender_power, normalAttack_defender_power]

lemma attackPair_attacker_specialDamage (t : ℚ) (k1 k2 : Bool) (A D : Character) :
    (specialAttack k2 (normalAttack t k1 A D).attacker
      (normalAttack t k1 A D).defender).attacker.specialDamage = A.specialDamage := by
  rw [specialAttack_attacker_specialDamage, normalAttack_attacker_specialDamage]

lemma attackPair_defender_specialDamage (t : ℚ) (k1 k2 : Bool) (A D : Character) :
    (specialAttack k2 (normalAttack t k1 A D).attacker
      (normalAttack t k1 A D).defender).defender.specialDamage = D.specialDamage := by
  rw [specialAttack_defender_specialDamage, normalAttack_defender_specialDamage]

lemma attackPair_attacker_x (t : ℚ) (k1 k2 : Bool) (A D : Character) :
    (specialAttack k2 (normalAttack t k1 A D).attacker
      (normalAttack t k1 A D).defender).attacker.x = A.x := by
  rw [specialAttack_attacker_x, normalAttack_attacker_x]

lemma attackPair_defender_x (t : ℚ) (k1 k2 : Bool) (A D : Character) :
    (specialAttack k2 (normalAttack t k1 A D).attacker
      (normalAttack t k1 A D).defender).defender.x = D.x := by
  rw [specialAttack_defender_x, normalAttack_defender_x]

lemma attackPair_attacker_width (t : ℚ) (k1 k2 : Bool) (A D : Character) :
    (specialAttack k2 (normalAttack t k1 A D).attacker
      (normalAttack t k1 A D).defender).attacker.width = A.width := by
  rw [specialAttack_attacker_width, normalAttack_attacker_width]

lemma attackPair_defender_width (t : ℚ) (k1 k2 : Bool) (A D : Character) :
    (specialAttack k2 (normalAttack t k1 A D).attacker
      (normalAttack t k1 A D).defender).defender.width = D.width := by
  rw [specialAttack_defender_width, normalAttack_defender_width]

lemma attackPair_defender_health_bounds (t : ℚ) (k1 k2 : Bool) (A D : Character)
    (hD : 0 ≤ D.health) (hpA : 0 ≤ A.power) (hsA : 0 ≤ A.specialDamage) :
    0 ≤ (specialAttack k2 (normalAttack t k1 A D).attacker
        (normalAttack t k1 A D).defender).defender.health ∧
    (specialAttack k2 (normalAttack t k1 A D).attacker
        (normalAttack t k1 A D).defender).defender.health ≤ D.health := by
  have hmid0 : 0 ≤ (normalAttack t k1 A D).defender.health :=
    normalAttack_defender_health_nonneg t k1 A D hD
  have hmidle : (normalAttack t k1 A D).defender.health ≤ D.health :=
    normalAttack_defender_health_le t k1 A D hD hpA
  have hsp : 0 ≤ (normalAttack t k1 A D).attacker.specialDamage := by
    rw [normalAttack_attacker_specialDamage]; exact hsA
  refine ⟨specialAttack_defender_health_nonneg k2 _ _ hmid0, ?_⟩
  calc (specialAttack k2 (normalAttack t k1 A D).attacker
      (normalAttack t k1 A D).defender).defender.health
      ≤ (normalAttack t k1 A D).defender.health :=
        specialAttack_defender_health_le k2 _ _ hmid0 hsp
    _ ≤ D.health := hmidle

lemma combatPipeline_health_invariant (W : ℚ) (keys : List String) (t : ℚ)
    (a1 a2 : Character) (h1 : 0 ≤ a1.health) (h2 : 0 ≤ a2.health)
    (hp1 : 0 ≤ a1.power) (hp2 : 0 ≤ a2.power)
    (hs1 : 0 ≤ a1.specialDamage) (hs2 : 0 ≤ a2.specialDamage) :
    (0 ≤ (combatPipeline W keys t a1 a2).attacker.health ∧
      (combatPipeline W keys t a1 a2).attacker.health ≤ a1.health ∧
      (combatPipeline W keys t a1 a2).attacker.maxHealth = a1.maxHealth) ∧
    (0 ≤ (combatPipeline W keys t a1 a2).defender.health ∧
      (combatPipeline W keys t a1 a2).defender.health ≤ a2.health ∧
      (combatPipeline W keys t a1 a2).defender.maxHealth = a2.maxHealth) := by
  simp only [combatPipeline]
  constructor
  · refine ⟨(attackPair_defender_health_bounds _ _ _ _ _ ?_ ?_ ?_).1,
      le_trans (attackPair_defender_health_bounds _ _ _ _ _ ?_ ?_ ?_).2 ?_, ?_⟩
    · simp only [attackPair_attacker_health, moveChar_health, momentumCheck_health,
        momentumExpiryStep_health, comboResetStep_health]
      exact h1
    · simp only [attackPair_defender_power, moveChar_power, momentumCheck_power,
        momentumExpiryStep_power, comboResetStep_power]
      exact hp2
    · simp only [attackPair_defender_specialDamage, moveChar_specialDamage,
        momentumCheck_specialDamage, momentumExpiryStep_specialDamage,
        comboResetStep_specialDamage]
      exact hs2
    · simp only [attackPair_attacker_health, moveChar_health, momentumCheck_health,
        momentumExpiryStep_health, comboResetStep_health]
      exact h1
    · simp only [attackPair_defender_power, moveChar_power, momentumCheck_power,
        momentumExpiryStep_power, comboResetStep_power]
      exact hp2
    · simp only [attackPair_defender_specialDamage, moveChar_specialDamage,
        momentumCheck_specialDamage, momentumExpiryStep_specialDamage,
        comboResetStep_specialDamage]
      exact hs2
    · simp only [attackPair_attacker_health, moveChar_health, momentumCheck_health,
        momentumExpiryStep_health, comboResetStep_health]
      exact le_refl _
    · simp only [attackPair_defender_maxHealth, attackPair_attacker_maxHealth,
        moveChar_maxHealth, momentumCheck_maxHealth, momentumExpiryStep_maxHealth,
        comboResetStep_maxHealth]
  · simp only [attackPair_attacker_health, attackPair_attacker_maxHealth]
    refine ⟨(attackPair_defender_health_bounds _ _ _ _ _ ?_ ?_ ?_).1,
      le_trans (attackPair_defender_health_bounds _ _ _ _ _ ?_ ?_ ?_).2 ?_, ?_⟩
    · simp only [moveChar_health, momentumCheck_health, momentumExpiryStep_health,
        comboResetStep_health]
      exact h2
    · simp only [moveChar_power, momentumCheck_power, momentumExpiryStep_power,
        comboResetStep_power]
      exact hp1
    · simp only [moveChar_specialDamage, momentumCheck_specialDamage,
        momentumExpiryStep_specialDamage, comboResetStep_specialDamage]
      exact hs1
    · simp only [moveChar_health, momentumCheck_health, momentumExpiryStep_health,
        comboResetStep_health]
      exact h2
    · simp only [moveChar_power, momentumCheck_power, momentumExpiryStep_power,
        comboResetStep_power]
      exact hp1
    · simp only [moveChar_specialDamage, momentumCheck_specialDamage,
        momentumExpiryStep_specialDamage, comboResetStep_specialDamage]
      exact hs1
    · simp only [moveChar_health, momentumCheck_health, momentumExpiryStep_health,
        comboResetStep_health]
      exact le_refl _
    · simp only [attackPair_defender_maxHealth, moveChar_maxHealth,
        momentumCheck_maxHealth, momentumExpiryStep_maxHealth, comboResetStep_maxHealth]

/-- C4: over one fighting tick each player's health stays in
`[0, maxHealth]` (it starts there and never increases), and health is
changed by nothing in the tick except a colliding normal attack or special of
the opponent: every other step of the tick preserves health exactly, and the
attack steps leave the defender's health unchanged unless they fire and the
collision test holds. -/
theorem health_invariant :
    (∀ (W : ℚ) (keys : List String) (t : ℚ) (prev : GameState)
        (a1 a2 q1 q2 : Character),
      prev.player1 = some a1 → prev.player2 = some a2 →
      0 ≤ a1.health → a1.health ≤ a1.maxHealth →
      0 ≤ a2.health → a2.health ≤ a2.maxHealth →
      0 ≤ a1.power → 0 ≤ a2.power →
      0 ≤ a1.specialDamage → 0 ≤ a2.specialDamage →
      (gameLoopTick W keys t prev).1.player1 = some q1 →
      (gameLoopTick W keys t prev).1.player2 = some q2 →
      (0 ≤ q1.health ∧ q1.health ≤ a1.health ∧ q1.health ≤ q1.maxHealth) ∧
      (0 ≤ q2.health ∧ q2.health ≤ a2.health ∧ q2.health ≤ q2.maxHealth))
    ∧ (∀ (t : ℚ) (k : Bool) (a d : Character),
        ¬(k ∧ ¬a.isAttacking ∧ checkCollision a d = true) →
        (normalAttack t k a d).defender.health = d.health)
    ∧ (∀ (k : Bool) (a d : Character),
        ¬(k ∧ a.combo ≥ a.comboThreshold ∧ ¬a.isAttacking ∧
            checkCollision a d = true) →
        (specialAttack k a d).defender.health = d.health)
    ∧ (∀ (t : ℚ) (p : Character), (comboResetStep t p).health = p.health)
    ∧ (∀ (t : ℚ) (p : Character), (momentumExpiryStep t p).health = p.health)
    ∧ (∀ (t : ℚ) (me opp : Character), (momentumCheck t me opp).health = me.health)
    ∧ (∀ (W : ℚ) (l r j : Bool) (p : Character),
        (moveChar W l r j p).health = p.health) := by
  refine ⟨?_, normalAttack_defender_health_unchanged,
    specialAttack_defender_health_unchanged, comboResetStep_health,
    momentumExpiryStep_health, momentumCheck_health, moveChar_health⟩
  intro W keys t prev a1 a2 q1 q2 h1 h2 hh1 hm1 hh2 hm2 hp1 hp2 hs1 hs2 hq1 hq2
  by_cases hph : prev.gamePhase = GamePhase.fighting
  · simp only [gameLoopTick, h1, h2, hph, if_true] at hq1 hq2
    rw [roundEndStep_player1, Option.some.injEq] at hq1
    rw [roundEndStep_player2, Option.some.injEq] at hq2
    subst hq1
    subst hq2
    obtain ⟨⟨g1, g2, g3⟩, g4, g5, g6⟩ :=
      combatPipeline_health_invariant W keys t a1 a2 hh1 hh2 hp1 hp2 hs1 hs2
    exact ⟨⟨g1, g2, by rw [g3]; exact le_trans g2 hm1⟩,
      ⟨g4, g5, by rw [g6]; exact le_trans g5 hm2⟩⟩
  · simp only [gameLoopTick, h1, h2, if_neg hph] at hq1 hq2
    rw [Option.some.injEq] at hq1 hq2
    subst hq1
    subst hq2
    exact ⟨⟨hh1, le_refl _, le_trans (le_refl _) hm1⟩,
      ⟨hh2, le_refl _, le_trans (le_refl _) hm2⟩⟩

/-- Witness for C4: one tick with no keys held from the initial fighting
state keeps both healths at their starting values, inside their bounds. -/
theorem health_invariant_witness :
    (0 ≤ charA.health ∧ charA.health ≤ charA.health ∧
      charA.health ≤ charA.maxHealth) ∧
    (0 ≤ charB.health ∧ charB.health ≤ charB.health ∧
      charB.health ≤ charB.maxHealth) :=
  health_invariant.1 1000 [] 0 (fightingFrom charA charB) charA charB charA charB
    rfl rfl (by norm_num [charA]) (by norm_num [charA])
    (by norm_num [charB, charA]) (by norm_num [charB, charA])
    (by norm_num [charA]) (by norm_num [charB, charA])
    (by norm_num [charA]) (by norm_num [charB, charA])
    (by norm_num +decide [gameLoopTick, combatPipeline, comboResetStep,
      momentumExpiryStep, momentumCheck, moveChar, normalAttack, specialAttack,
      checkCollision, calculateIntensity, roundEndStep, fightingFrom, charA, charB,
      COMBO_RESET_TIME, MOMENTUM_BOOST_DURATION, MOMENTUM_HEALTH_THRESHOLD, ROUND_TIME])
    (by norm_num +decide [gameLoopTick, combatPipeline, comboResetStep,
      momentumExpiryStep, momentumCheck, moveChar, normalAttack, specialAttack,
      checkCollision, calculateIntensity, roundEndStep, fightingFrom, charA, charB,
      COMBO_RESET_TIME, MOMENTUM_BOOST_DURATION, MOMENTUM_HEALTH_THRESHOLD, ROUND_TIME])

/-- C5: a normal attack that fires (key held, not already attacking) and
collides deals base power times 1.3 under momentum boost (else times 1),
floors the defender's health at 0, increments the attacker's combo, records
`lastHitTime` as the current timestamp, and emits a hit cue plus a combo cue
when the incremented combo is at least 3.  Concretely, power 18 with no
momentum against a defender at health 100 leaves the defender at exactly 82. -/
theorem normal_attack_resolution (t : ℚ) (k : Bool) (a d : Character)
    (hk : k = true) (hna : ¬a.isAttacking) (hc : checkCollision a d = true) :
    normalAttack t k a d =
      { attacker := { a with
          isAttacking := true, combo := a.combo + 1, lastHitTime := t },
        defender := { d with
          health := max 0 (d.health - a.power * (if a.momentumBoost then 13/10 else 1)) },
        cues := if a.combo + 1 ≥ 3 then [Cue.hit, Cue.combo] else [Cue.hit] }
    ∧ ((gameLoopTick 1000 ["j"] 0
          (fightingFrom { charA with x := 306 } { charB with x := 350 })).1.player2.map
            fun c => c.health) = some 82
    ∧ (gameLoopTick 1000 ["j"] 0
        (fightingFrom { charA with x := 306 } { charB with x := 350 })).2 = [Cue.hit] := by
  refine ⟨?_, ?_, ?_⟩
  · simp only [normalAttack, checkCollision] at hc ⊢
    rw [if_pos ⟨hk, hna⟩, if_pos hc]
  · norm_num +decide [gameLoopTick, combatPipeline, comboResetStep, momentumExpiryStep,
      momentumCheck, moveChar, normalAttack, specialAttack, checkCollision,
      calculateIntensity, roundEndStep, fightingFrom, charA, charB,
      COMBO_RESET_TIME, MOMENTUM_BOOST_DURATION, MOMENTUM_HEALTH_THRESHOLD, ROUND_TIME]
  · norm_num +decide [gameLoopTick, combatPipeline, comboResetStep, momentumExpiryStep,
      momentumCheck, moveChar, normalAttack, specialAttack, checkCollision,
      calculateIntensity, roundEndStep, fightingFrom, charA, charB,
      COMBO_RESET_TIME, MOMENTUM_BOOST_DURATION, MOMENTUM_HEALTH_THRESHOLD, ROUND_TIME]

/-- Witness for C5: a colliding punch at power 18 with no momentum brings the
defender from 100 to exactly 82, sets combo to 1 and lastHitTime to the tick
timestamp, and emits one hit cue. -/
theorem normal_attack_resolution_witness :
    (normalAttack 7 true { charA with x := 306 } { charB with x := 350 }).defender.health = 82 ∧
    (normalAttack 7 true { charA with x := 306 } { charB with x := 350 }).attacker.combo = 1 ∧
    (normalAttack 7 true { charA with x := 306 } { charB with x := 350 }).attacker.lastHitTime = 7 ∧
    (normalAttack 7 true { charA with x := 306 } { charB with x := 350 }).cues = [Cue.hit] := by
  have h := (normal_attack_resolution 7 true { charA with x := 306 }
    { charB with x := 350 } rfl (by decide)
    (by norm_num [checkCollision, charA, charB])).1
  rw [h]
  refine ⟨?_, ?_, ?_, ?_⟩ <;> norm_num [charA, charB]

/-- Counterexample to C3 as stated: with combo 3 (= threshold), special key
held and no collision (the fighters stand 500 apart), the special fires —
`isAttacking` becomes true — but the combo is NOT reset to 0: the source only
resets the combo inside the collision branch. -/
theorem special_combo_reset_cex :
    ((gameLoopTick 1000 ["q"] 0
        (fightingFrom { charA with combo := 3 } charB)).1.player1.map
      fun c => (c.combo, c.isAttacking)) = some (3, true) := by
  norm_num +decide [gameLoopTick, combatPipeline, comboResetStep, momentumExpiryStep,
    momentumCheck, moveChar, normalAttack, specialAttack, checkCollision,
    calculateIntensity, roundEndStep, fightingFrom, charA, charB,
    COMBO_RESET_TIME, MOMENTUM_BOOST_DURATION, MOMENTUM_HEALTH_THRESHOLD, ROUND_TIME]

/-- C3 as amended: the special fires only when the special key is held, the
combo has reached the archetype's threshold and the player is not already
attacking; on a collision it deals special damage times 1.5 under momentum
boost (else times 1) with the defender's health floored at 0 and resets the
attacker's combo to exactly 0; fired without a collision it leaves the combo
unchanged.  Concretely (scenario E), combo 3 with threshold 3, special key
held, collision, special damage 35 and no momentum takes the defender from
100 to exactly 65 and the attacker's combo to 0. -/
theorem special_move_resolution (k : Bool) (a d : Character) (hk : k = true)
    (hcombo : a.comboThreshold ≤ a.combo) (hna : ¬a.isAttacking) :
    (specialAttack k a d =
      if checkCollision a d then
        { attacker := { a with isAttacking := true, combo := 0 },
          defender := { d with
            health := max 0 (d.health -
              a.specialDamage * (if a.momentumBoost then 3/2 else 1)) },
          cues := [Cue.special] }
      else { attacker := { a with isAttacking := true }, defender := d, cues := [] })
    ∧ (∀ (k2 : Bool) (a2 d2 : Character),
        ¬(k2 ∧ a2.comboThreshold ≤ a2.combo ∧ ¬a2.isAttacking) →
        specialAttack k2 a2 d2 = { attacker := a2, defender := d2, cues := [] })
    ∧ ((gameLoopTick 1000 ["q"] 0
          (fightingFrom { charA with x := 306, combo := 3 }
            { charB with x := 350 })).1.player2.map fun c => c.health) = some 65
    ∧ ((gameLoopTick 1000 ["q"] 0
          (fightingFrom { charA with x := 306, combo := 3 }
            { charB with x := 350 })).1.player1.map fun c => c.combo) = some 0
    ∧ (gameLoopTick 1000 ["q"] 0
        (fightingFrom { charA with x := 306, combo := 3 }
          { charB with x := 350 })).2 = [Cue.special] := by
  refine ⟨?_, ?_, ?_, ?_, ?_⟩
  · simp only [specialAttack, checkCollision]
    rw [if_pos ⟨hk, hcombo, hna⟩]
  · intro k2 a2 d2 h
    simp only [specialAttack]
    rw [if_neg h]
  · norm_num +decide [gameLoopTick, combatPipeline, comboResetStep, momentumExpiryStep,
      momentumCheck, moveChar, normalAttack, specialAttack, checkCollision,
      calculateIntensity, roundEndStep, fightingFrom, charA, charB,
      COMBO_RESET_TIME, MOMENTUM_BOOST_DURATION, MOMENTUM_HEALTH_THRESHOLD, ROUND_TIME]
  · norm_num +decide [gameLoopTick, combatPipeline, comboResetStep, momentumExpiryStep,
      momentumCheck, moveChar, normalAttack, specialAttack, checkCollision,
      calculateIntensity, roundEndStep, fightingFrom, charA, charB,
      COMBO_RESET_TIME, MOMENTUM_BOOST_DURATION, MOMENTUM_HEALTH_THRESHOLD, ROUND_TIME]
  · norm_num +decide [gameLoopTick, combatPipeline, comboResetStep, momentumExpiryStep,
      momentumCheck, moveChar, normalAttack, specialAttack, checkCollision,
      calculateIntensity, roundEndStep, fightingFrom, charA, charB,
      COMBO_RESET_TIME, MOMENTUM_BOOST_DURATION, MOMENTUM_HEALTH_THRESHOLD, ROUND_TIME]

/-- Witness for C3 (amended): the colliding special at damage 35 without
momentum leaves the defender at 65 and resets the attacker's combo to 0. -/
theorem special_move_resolution_witness :
    (specialAttack true { charA with x := 306, combo := 3 }
      { charB with x := 350 }).defender.health = 65 ∧
    (specialAttack true { charA with x := 306, combo := 3 }
      { charB with x := 350 }).attacker.combo = 0 := by
  have h := (special_move_resolution true { charA with x := 306, combo := 3 }
    { charB with x := 350 } rfl (by decide) (by decide)).1
  rw [h, if_pos (by norm_num [checkCollision, charA, charB] :
    checkCollision { charA with x := 306, combo := 3 } { charB with x := 350 } = true)]
  constructor <;> norm_num [charA, charB]

/-- Counterexample to C2 as stated: from the in-bounds position x = 2 (stage
width 1000, character width 80, so bounds [0, 920]), holding the left key for
one tick moves player1 to x = −6: the source checks `x > 0` before moving but
does not clamp the result, so the position leaves [0, stageWidth − width]. -/
theorem position_bounds_cex :
    ((gameLoopTick 1000 ["a"] 0
        (fightingFrom { charA with x := 2 } charB)).1.player1.map
      fun c => c.x) = some (-6) ∧ ((-6 : ℚ) < 0) := by
  constructor
  · norm_num +decide [gameLoopTick, combatPipeline, comboResetStep, momentumExpiryStep,
      momentumCheck, moveChar, normalAttack, specialAttack, checkCollision,
      calculateIntensity, roundEndStep, fightingFrom, charA, charB,
      COMBO_RESET_TIME, MOMENTUM_BOOST_DURATION, MOMENTUM_HEALTH_THRESHOLD, ROUND_TIME]
  · norm_num

lemma combatPipeline_x (W : ℚ) (keys : List String) (t : ℚ) (a1 a2 : Character) :
    (combatPipeline W keys t a1 a2).attacker.x =
      (moveChar W (keys.contains "a") (keys.contains "d") (keys.contains "w")
        (momentumCheck t (momentumExpiryStep t (comboResetStep t a1))
          (momentumExpiryStep t (comboResetStep t a2)))).x ∧
    (combatPipeline W keys t a1 a2).defender.x =
      (moveChar W (keys.contains "arrowleft") (keys.contains "arrowright")
        (keys.contains "arrowup")
        (momentumCheck t (momentumExpiryStep t (comboResetStep t a2))
          (momentumExpiryStep t (comboResetStep t a1)))).x := by
  simp only [combatPipeline]
  exact ⟨by simp only [attackPair_defender_x, attackPair_attacker_x],
    by simp only [attackPair_attacker_x, attackPair_defender_x]⟩

/-- C2 as amended: each movement direction applies only while the position is
strictly inside that side's bound (`x > 0` for left, `x < stageWidth − width`
for right), moving by the effective speed (base speed times 1.5 under
momentum boost) and setting the facing direction to the direction of travel;
the result is NOT clamped, so over a tick the position is only guaranteed to
stay within the open interval
(−1.5·speed, stageWidth − width + 1.5·speed) when it starts inside
[0, stageWidth − width]. -/
theorem position_bounds_amended :
    (∀ (W : ℚ) (l r j : Bool) (p : Character),
      ¬(l ∧ p.x > 0) → ¬(r ∧ p.x < W - p.width) →
      (moveChar W l r j p).x = p.x ∧
        (moveChar W l r j p).facingRight = p.facingRight)
    ∧ (∀ (W : ℚ) (l r j : Bool) (p : Character),
      (l ∧ p.x > 0) →
      ¬(r ∧ p.x - p.speed * (if p.momentumBoost then 3/2 else 1) < W - p.width) →
      (moveChar W l r j p).x =
          p.x - p.speed * (if p.momentumBoost then 3/2 else 1) ∧
        (moveChar W l r j p).facingRight = false)
    ∧ (∀ (W : ℚ) (l r j : Bool) (p : Character),
      ¬(l ∧ p.x > 0) → (r ∧ p.x < W - p.width) →
      (moveChar W l r j p).x =
          p.x + p.speed * (if p.momentumBoost then 3/2 else 1) ∧
        (moveChar W l r j p).facingRight = true)
    ∧ (∀ (W : ℚ) (l r j : Bool) (p : Character),
      (l ∧ p.x > 0) →
      (r ∧ p.x - p.speed * (if p.momentumBoost then 3/2 else 1) < W - p.width) →
      (moveChar W l r j p).x =
          p.x - p.speed * (if p.momentumBoost then 3/2 else 1) +
            p.speed * (if p.momentumBoost then 3/2 else 1) ∧
        (moveChar W l r j p).facingRight = true)
    ∧ (∀ (W : ℚ) (l r j : Bool) (p : Character),
      0 < p.speed → 0 ≤ p.x → p.x ≤ W - p.width →
      -(3/2 * p.speed) < (moveChar W l r j p).x ∧
        (moveChar W l r j p).x < W - p.width + 3/2 * p.speed)
    ∧ (∀ (W : ℚ) (keys : List String) (t : ℚ) (prev : GameState)
        (a1 a2 q1 q2 : Character),
      prev.player1 = some a1 → prev.player2 = some a2 →
      0 < a1.speed → 0 < a2.speed →
      0 ≤ a1.x → a1.x ≤ W - a1.width → 0 ≤ a2.x → a2.x ≤ W - a2.width →
      (gameLoopTick W keys t prev).1.player1 = some q1 →
      (gameLoopTick W keys t prev).1.player2 = some q2 →
      (-(3/2 * a1.speed) < q1.x ∧ q1.x < W - a1.width + 3/2 * a1.speed) ∧
      (-(3/2 * a2.speed) < q2.x ∧ q2.x < W - a2.width + 3/2 * a2.speed)) := by
  refine ⟨?_, ?_, ?_, ?_, moveChar_x_bounds, ?_⟩
  · intro W l r j p hl hr
    simp only [moveChar]
    rw [if_neg hl]
    rw [if_neg hr]
    refine ⟨?_, ?_⟩ <;> split_ifs <;> rfl
  · intro W l r j p hl hr
    simp only [moveChar]
    rw [if_pos hl]
    dsimp only
    rw [if_neg hr]
    refine ⟨?_, ?_⟩ <;> split_ifs <;> rfl
  · intro W l r j p hl hr
    simp only [moveChar]
    rw [if_neg hl]
    rw [if_pos hr]
    refine ⟨?_, ?_⟩ <;> split_ifs <;> rfl
  · intro W l r j p hl hr
    simp only [moveChar]
    rw [if_pos hl]
    dsimp only
    rw [if_pos hr]
    refine ⟨?_, ?_⟩ <;> split_ifs <;> rfl
  · intro W keys t prev a1 a2 q1 q2 h1 h2 hsp1 hsp2 hx1 hw1 hx2 hw2 hq1 hq2
    by_cases hph : prev.gamePhase = GamePhase.fighting
    · simp only [gameLoopTick, h1, h2, hph, if_true] at hq1 hq2
      rw [roundEndStep_player1, Option.some.injEq] at hq1
      rw [roundEndStep_player2, Option.some.injEq] at hq2
      subst hq1
      subst hq2
      obtain ⟨he1, he2⟩ := combatPipeline_x W keys t a1 a2
      rw [he1, he2]
      constructor
      · have hb := moveChar_x_bounds W (keys.contains "a") (keys.contains "d")
          (keys.contains "w")
          (momentumCheck t (momentumExpiryStep t (comboResetStep t a1))
            (momentumExpiryStep t (comboResetStep t a2)))
          (by simp only [momentumCheck_speed, momentumExpiryStep_speed,
              comboResetStep_speed]
              exact hsp1)
          (by simp only [momentumCheck_x, momentumExpiryStep_x, comboResetStep_x]
              exact hx1)
          (by simp only [momentumCheck_x, momentumCheck_width, momentumExpiryStep_x,
              momentumExpiryStep_width, comboResetStep_x, comboResetStep_width]
              exact hw1)
        simpa only [momentumCheck_speed, momentumExpiryStep_speed, comboResetStep_speed,
          momentumCheck_width, momentumExpiryStep_width, comboResetStep_width] using hb
      · have hb := moveChar_x_bounds W (keys.contains "arrowleft")
          (keys.contains "arrowright") (keys.contains "arrowup")
          (momentumCheck t (momentumExpiryStep t (comboResetStep t a2))
            (momentumExpiryStep t (comboResetStep t a1)))
          (by simp only [momentumCheck_speed, momentumExpiryStep_speed,
              comboResetStep_speed]
              exact hsp2)
          (by simp only [momentumCheck_x, momentumExpiryStep_x, comboResetStep_x]
              exact hx2)
          (by simp only [momentumCheck_x, momentumCheck_width, momentumExpiryStep_x,
              momentumExpiryStep_width, comboResetStep_x, comboResetStep_width]
              exact hw2)
        simpa only [momentumCheck_speed, momentumExpiryStep_speed, comboResetStep_speed,
          momentumCheck_width, momentumExpiryStep_width, comboResetStep_width] using hb
    · simp only [gameLoopTick, h1, h2, if_neg hph] at hq1 hq2
      rw [Option.some.injEq] at hq1 hq2
      subst hq1
      subst hq2
      constructor <;> constructor <;> nlinarith

/-- Witness for C2 (amended): moving left from the start position 250 with
speed 8 stays within the overshoot bound. -/
theorem position_bounds_amended_witness :
    -(3/2 * charA.speed) < (moveChar 1000 true false false charA).x ∧
    (moveChar 1000 true false false charA).x < 1000 - charA.width + 3/2 * charA.speed :=
  position_bounds_amended.2.2.2.2.1 1000 true false false charA
    (by norm_num [charA]) (by norm_num [charA]) (by norm_num [charA])

/-- Counterexample to C8 as stated: the unregistered id "goro" is NOT
rejected at the selection attempt — `selectCharacter` stores any id without
consulting the registry — and `startFight` with that selection does not
gracefully fail but hits the failed registry lookup inside `createCharacter`
(an uncaught `TypeError` in the source, `none` here). -/
theorem unknown_archetype_cex :
    lookupFighter "goro" = none ∧
    (selectCharacter PlayerId.player1 "goro" initialGameState).player1Selection =
      some "goro" ∧
    startFight 1000 850 (selectCharacter PlayerId.player2 "goro"
      (selectCharacter PlayerId.player1 "goro" initialGameState)) = none := by
  refine ⟨rfl, rfl, rfl⟩

/-- C8 as amended, at the plain unregistered archetype id "goro":
`selectCharacter` stores the id unvalidated (the selection is not rejected at
the selection attempt), the registry lookup yields nothing, no `Character` is
ever constructed from the missing entry (`createCharacter` fails), and
`startFight` on such selections fails — in the source by an uncaught
`TypeError` inside `createCharacter` (modelled `none`) — rather than
producing a fighting state.  The empty-string id behaves differently: being
falsy in JS, it trips the selection-presence guard and `startFight` is a
silent no-op, never reaching the registry lookup. -/
theorem unknown_archetype_amended :
    lookupFighter "goro" = none ∧
    (∀ (W g : ℚ) (b : Bool), createCharacter W g "goro" b = none) ∧
    (∀ (s : GameState),
      (selectCharacter PlayerId.player1 "goro" s).player1Selection = some "goro" ∧
      (selectCharacter PlayerId.player2 "goro" s).player2Selection = some "goro") ∧
    (∀ (W g : ℚ) (s : GameState),
      startFight W g (selectCharacter PlayerId.player2 "goro"
        (selectCharacter PlayerId.player1 "goro" s)) = none) ∧
    (∀ (W g : ℚ) (s : GameState),
      startFight W g (selectCharacter PlayerId.player2 ""
        (selectCharacter PlayerId.player1 "" s)) =
      some (selectCharacter PlayerId.player2 ""
        (selectCharacter PlayerId.player1 "" s))) :=
  ⟨rfl, fun _ _ _ => rfl, fun _ => ⟨rfl, rfl⟩, fun _ _ _ => rfl, fun _ _ _ => rfl⟩

/-- A game-over state as reached after player1's second round win. -/
def gameOverState : GameState :=
  { fightingFrom charA charB with
    gamePhase := GamePhase.gameOver, player1Wins := 2, winner := some "SCORPION" }

/-- Counterexample to C9 as stated: `startNextRound` in the `gameOver` phase
is not a no-op — both players exist, so it re-enters `fighting` (this is what
the REMATCH button on the game-over screen invokes). -/
theorem next_round_noop_cex :
    (startNextRound 1000 850 gameOverState).gamePhase = GamePhase.fighting ∧
    gameOverState.gamePhase = GamePhase.gameOver ∧
    startNextRound 1000 850 gameOverState ≠ gameOverState := by
  refine ⟨rfl, rfl, fun h => ?_⟩
  exact GamePhase.noConfusion (congrArg GameState.gamePhase h)

/-- C9 as amended: `startNextRound` is a silent no-op exactly when a player
is missing (e.g. during selection); whenever both players exist — in any
phase, including `fighting` and `gameOver` — it restores both players,
advances the round counter, resets the round timer and re-enters `fighting`
without touching the win counters, so `gameOver` is not terminal under
`startNextRound` (the REMATCH button relies on this). -/
theorem next_round_guard_amended (W g : ℚ) (s : GameState) :
    ((s.player1 = none ∨ s.player2 = none) → startNextRound W g s = s)
    ∧ (∀ (p1 p2 : Character), s.player1 = some p1 → s.player2 = some p2 →
      (startNextRound W g s).gamePhase = GamePhase.fighting ∧
      (startNextRound W g s).currentRound = s.currentRound + 1 ∧
      (startNextRound W g s).roundTime = ROUND_TIME ∧
      (startNextRound W g s).player1Wins = s.player1Wins ∧
      (startNextRound W g s).player2Wins = s.player2Wins ∧
      (startNextRound W g s).player1 = some { p1 with
        x := W * (1/4), y := g, health := p1.maxHealth, isJumping := false,
        isAttacking := false, facingRight := true, combo := 0,
        momentumBoost := false } ∧
      (startNextRound W g s).player2 = some { p2 with
        x := W * (3/4), y := g, health := p2.maxHealth, isJumping := false,
        isAttacking := false, facingRight := false, combo := 0,
        momentumBoost := false }) := by
  constructor
  · intro h
    rcases h with h | h <;> cases hp : s.player1 <;> cases hq : s.player2 <;>
      simp_all [startNextRound]
  · intro p1 p2 h1 h2
    simp [startNextRound, h1, h2]

/-- Witness for C9 (amended): invoking `startNextRound` on the game-over
state re-enters `fighting` and advances the round counter. -/
theorem next_round_guard_amended_witness :
    (startNextRound 1000 850 gameOverState).gamePhase = GamePhase.fighting ∧
    (startNextRound 1000 850 gameOverState).currentRound =
      gameOverState.currentRound + 1 := by
  have h := (next_round_guard_amended 1000 850 gameOverState).2 charA charB rfl rfl
  exact ⟨h.1, h.2.1⟩

/-- C10: the per-tick update is deterministic — two runs of `gameLoopTick`
from the same state, the same held-key set and the same timestamp produce the
same resulting state and the same sequence of emitted cues. -/
theorem tick_deterministic (W : ℚ) (keys : List String) (t : ℚ)
    (s s1 s2 : GameState) (c1 c2 : List Cue)
    (hA : GameStep W keys t s s1 c1) (hB : GameStep W keys t s s2 c2) :
    s1 = s2 ∧ c1 = c2 := by
  rw [GameStep] at hA hB
  rw [hA] at hB
  exact ⟨congrArg Prod.fst hB, congrArg Prod.snd hB⟩

/-- Witness for C10: two runs of the tick on the initial state agree. -/
theorem tick_deterministic_witness :
    initialGameState = initialGameState ∧ ([] : List Cue) = [] :=
  tick_deterministic 1000 [] 0 initialGameState initialGameState initialGameState
    [] [] rfl rfl
